import Mathlib

/-!
Verification of the registry-cache cloud-init user-data generator of the
nixos-fireactions repository.

The generator is implemented in Python and duplicated (with small
variations) across `modules/fireactions-inject-secrets.py`,
`modules/fireglab/inject-secrets.py` and `images/src/generate-config.py`.
The document is built as a Python list of text lines
(`user_data_lines`), joined with newlines at the very end; multi-line
payloads (containerd `hosts.toml` files, the BuildKit configuration, the
Docker `daemon.json`, the CA certificate) are built as strings, split on
`'\n'` and re-emitted with a fixed indentation prefix.

This file embeds that logic shallowly: strings are Lean `String`s,
Python's `'\n'.join` is `joinNl`, Python's `str.split('\n')` is
`splitNl`, line lists are `List String`, and the few JSON values the
scripts inspect are the inductive `PyVal`.
-/

/-- Python's `str.split('\n')` on the underlying character list:
splitting on every newline character, keeping empty segments
(`"".split('\n') == [""]`, `"a\n".split('\n') == ["a", ""]`). -/
def splitNlChars : List Char → List (List Char)
  | [] => [[]]
  | c :: cs =>
    if c = '\n' then [] :: splitNlChars cs
    else
      match splitNlChars cs with
      | [] => [[c]]
      | l :: ls => (c :: l) :: ls

/-- Python's `str.split('\n')` lifted to `String`. -/
def splitNl (s : String) : List String :=
  (splitNlChars s.data).map String.mk

/-- Python's `'\n'.join` on a list of strings. -/
def joinNl : List String → String
  | [] => ""
  | [l] => l
  | l :: l' :: ls => l ++ "\n" ++ joinNl (l' :: ls)

/-- A string containing no newline character (one "line" of text). -/
def nlFree (s : String) : Prop := '\n' ∉ s.data

instance (s : String) : Decidable (nlFree s) := by
  unfold nlFree; infer_instance

theorem splitNlChars_ne_nil (cs : List Char) : splitNlChars cs ≠ [] := by
  induction cs with
  | nil => simp [splitNlChars]
  | cons c cs ih =>
    simp only [splitNlChars]
    split
    · simp
    · cases h : splitNlChars cs with
      | nil => simp
      | cons l ls => simp

theorem splitNlChars_of_not_mem (cs : List Char) (h : '\n' ∉ cs) :
    splitNlChars cs = [cs] := by
  induction cs with
  | nil => rfl
  | cons c cs ih =>
    simp only [List.mem_cons, not_or] at h
    simp only [splitNlChars]
    rw [if_neg (fun hc => h.1 hc.symm), ih h.2]

theorem splitNlChars_append (a b : List Char) (h : '\n' ∉ a) :
    splitNlChars (a ++ '\n' :: b) = a :: splitNlChars b := by
  induction a with
  | nil => simp [splitNlChars]
  | cons c cs ih =>
    simp only [List.mem_cons, not_or] at h
    simp only [List.cons_append, splitNlChars]
    rw [if_neg (fun hc => h.1 hc.symm)]
    simp only [List.append_eq]
    rw [ih h.2]

theorem string_mk_data (s : String) : String.mk s.data = s := rfl

theorem joinNl_data_cons (l l' : String) (ls : List String) :
    (joinNl (l :: l' :: ls)).data = l.data ++ '\n' :: (joinNl (l' :: ls)).data := by
  show (l ++ "\n" ++ joinNl (l' :: ls)).data = _
  simp [String.data_append]

/-- Splitting the newline-join of a nonempty list of newline-free lines
recovers exactly those lines (Python: `'\n'.join(ls).split('\n') == ls`). -/
theorem splitNl_joinNl (ls : List String) (h : ∀ l ∈ ls, nlFree l) (hne : ls ≠ []) :
    splitNl (joinNl ls) = ls := by
  induction ls with
  | nil => exact absurd rfl hne
  | cons l ls ih =>
    cases ls with
    | nil =>
      have hl : nlFree l := h l (by simp)
      simp only [splitNl, joinNl]
      rw [splitNlChars_of_not_mem l.data hl]
      simp [string_mk_data]
    | cons l' ls' =>
      have hl : nlFree l := h l (by simp)
      simp only [splitNl]
      rw [joinNl_data_cons, splitNlChars_append _ _ hl]
      simp only [List.map_cons, string_mk_data]
      have := ih (fun x hx => h x (List.mem_cons_of_mem _ hx)) (by simp)
      simpa [splitNl] using this

theorem nlFree_append (a b : String) : nlFree (a ++ b) ↔ nlFree a ∧ nlFree b := by
  simp [nlFree, String.data_append, List.mem_append, not_or]

/-- Boolean "the character list `p` is an initial segment of `s`". -/
def startsWithL : List Char → List Char → Bool
  | [], _ => true
  | _ :: _, [] => false
  | p :: ps, c :: cs => p == c && startsWithL ps cs

theorem startsWithL_append_left (p a x : List Char) (h : p.length ≤ a.length) :
    startsWithL p (a ++ x) = startsWithL p a := by
  induction p generalizing a with
  | nil => rfl
  | cons c cs ih =>
    cases a with
    | nil => simp at h
    | cons d ds =>
      simp only [List.cons_append, startsWithL, List.append_eq]
      rw [ih ds (by simpa using h)]

theorem startsWithL_self_append (p x : List Char) :
    startsWithL p (p ++ x) = true := by
  induction p with
  | nil => rfl
  | cons c cs ih => simp [startsWithL, ih]

/-- A string beginning with the fixed text `p` is never equal to a string
`t` that does not begin with `p`. -/
theorem append_ne_of_not_startsWithL (p a t : String)
    (h : startsWithL p.data t.data = false) : p ++ a ≠ t := by
  intro he
  rw [← he, String.data_append, startsWithL_self_append] at h
  exact Bool.noConfusion h

/-! ## Python value model

The scripts read registry-mirror configuration from a JSON environment
variable and inspect it only via `isinstance(x, dict)` and
`x.get("url", default)`.  `PyVal` models the JSON values involved; the
constructors not exercised by the scripts' checks (booleans, null,
arrays) are omitted since every branch of the code treats them exactly
like `int` (the "not a dict" fallthrough).  Python dicts preserve
insertion order, so a dict is a key-ordered association list. -/

inductive PyVal where
  | str : String → PyVal
  | int : Int → PyVal
  | dict : List (String × PyVal) → PyVal

/-- Lookup in a Python dict (`d.get(k)` / `k in d`), first match wins. -/
def assocLookup : List (String × PyVal) → String → Option PyVal
  | [], _ => none
  | kv :: rest, k => if kv.1 == k then some kv.2 else assocLookup rest k

/-- Lookup in a string-valued Python dict. -/
def lookupStr : List (String × String) → String → Option String
  | [], _ => none
  | kv :: rest, k => if kv.1 == k then some kv.2 else lookupStr rest k

mutual

/-- Python `str()` as applied by the f-strings of the generator.  The
`dict` branch approximates `repr` (it does not reproduce Python's escaping
of special characters inside nested strings); no claim below depends on
stringified dict values. -/
def PyVal.pyStr : PyVal → String
  | PyVal.str s => s
  | PyVal.int n => toString n
  | PyVal.dict fields => "\x7b" ++ pyStrFields fields ++ "\x7d"

def pyStrFields : List (String × PyVal) → String
  | [] => ""
  | [kv] => "\x27" ++ kv.1 ++ "\x27: " ++ PyVal.pyStr kv.2
  | kv :: kv' :: rest =>
    "\x27" ++ kv.1 ++ "\x27: " ++ PyVal.pyStr kv.2 ++ ", " ++ pyStrFields (kv' :: rest)

end

/-! ## Registry mirror planning

Shared verbatim between `fireactions-inject-secrets.py` (lines 86-128)
and `generate-config.py` (lines 90-131): the default upstream table, the
upstream-URL resolution and the per-registry `hosts.toml` text. -/

/-- Built-in upstream URLs for the four well-known registry names. -/
def default_upstreams : List (String × String) :=
  [("docker.io", "https://registry-1.docker.io"),
   ("ghcr.io", "https://ghcr.io"),
   ("quay.io", "https://quay.io"),
   ("gcr.io", "https://gcr.io")]

/-- Python `default_upstreams.get(registry_name, f"https://{registry_name}")`. -/
def defaultUpstream (registry_name : String) : String :=
  (lookupStr default_upstreams registry_name).getD ("https://" ++ registry_name)

/-- Upstream resolution for one mirror entry:
`mirror_config.get("url", default)` when the entry is a dict, the default
otherwise.  Note that a `url` key present in the dict is used whatever its
value is (Python `dict.get` only falls back when the key is absent). -/
def upstream_url (registry_name : String) (mirror_config : PyVal) : PyVal :=
  match mirror_config with
  | PyVal.dict fields =>
    (assocLookup fields "url").getD (PyVal.str (defaultUpstream registry_name))
  | _ => PyVal.str (defaultUpstream registry_name)

/-- The `hosts.toml` text generated for one registry (the triple-quoted
f-strings at `fireactions-inject-secrets.py` lines 103-120, written here
as their lines joined by newlines).  `docker.io` gets only the root host
block; every other registry additionally gets the `/v2/<name>` block with
`override_path = true`. -/
def hosts_toml (gateway zot_port registry_name upstream : String) : String :=
  if registry_name == "docker.io" then
    joinNl
      ["server = \"" ++ (upstream ++ "\""),
       "",
       "[host.\"http://" ++ (gateway ++ (":" ++ (zot_port ++ "\"]"))),
       "  capabilities = [\"pull\", \"resolve\"]",
       "  skip_verify = true"]
  else
    joinNl
      ["server = \"" ++ (upstream ++ "\""),
       "",
       "[host.\"http://" ++ (gateway ++ (":" ++ (zot_port ++ "\"]"))),
       "  capabilities = [\"pull\", \"resolve\"]",
       "  skip_verify = true",
       "",
       "[host.\"http://" ++ (gateway ++ (":" ++ (zot_port ++ ("/v2/" ++ (registry_name ++ "\"]"))))),
       "  capabilities = [\"pull\", \"resolve\"]",
       "  override_path = true"]

/-- Squid CA-injection policy (`needs_ca`), identical in
`fireactions-inject-secrets.py` lines 187-190 and
`fireglab/inject-secrets.py` lines 221-224.  Python string truthiness of
the domain list is non-emptiness. -/
def needs_ca (squid_ssl_bump_mode squid_ssl_bump_domains : String) : Bool :=
  squid_ssl_bump_mode == "all" ||
    (squid_ssl_bump_mode == "selective" && squid_ssl_bump_domains != "")

/-! ## The fireactions cloud-init document assembler

Embedding of the user-data construction in
`modules/fireactions-inject-secrets.py`, lines 56-292.  The Python code
builds the document as the list `user_data_lines` by successive
`extend` calls; each block of consecutive `extend`ed lines is one of the
chunk definitions below, and the assembler concatenates them under the
source's conditions. -/

/-- One `write_files` entry for a registry mirror: path, `content: |`
marker and the `hosts.toml` payload split on newlines and re-indented by
six spaces (lines 122-128). -/
def mirrorEntryLines (gateway zot_port : String) (m : String × PyVal) : List String :=
  ["  - path: /etc/containerd/certs.d/" ++ (m.1 ++ "/hosts.toml"),
   "    content: |"]
  ++ (splitNl (hosts_toml gateway zot_port m.1 (PyVal.pyStr (upstream_url m.1 m.2)))).map
      (fun l => "      " ++ l)

/-- The BuildKit stanza lines, one group of five per mirror in iteration
order (lines 134-144). -/
def buildkit_config_lines (gateway zot_port : String) (ms : List (String × PyVal)) : List String :=
  ms.flatMap (fun m =>
    ["[registry.\"" ++ (m.1 ++ "\"]"),
     "  mirrors = [\"" ++ (gateway ++ (":" ++ (zot_port ++ "\"]"))),
     "  http = true",
     "  insecure = true",
     ""])

/-- Python `'\n'.join(buildkit_config_lines)` (line 146). -/
def buildkit_config (gateway zot_port : String) (ms : List (String × PyVal)) : String :=
  joinNl (buildkit_config_lines gateway zot_port ms)

/-- The `write_files` entry for `/etc/buildkit/buildkitd.toml`
(lines 148-156). -/
def buildkitChunk (gateway zot_port : String) (ms : List (String × PyVal)) : List String :=
  ["  - path: /etc/buildkit/buildkitd.toml",
   "    content: |",
   "      # BuildKit registry mirrors for docker/setup-buildx-action",
   "      # Use with: docker buildx create --config /etc/buildkit/buildkitd.toml",
   "      # Or set BUILDKIT_CONFIG=/etc/buildkit/buildkitd.toml"]
  ++ (splitNl (buildkit_config gateway zot_port ms)).map (fun l => "      " ++ l)

/-- The exact text of `json.dumps(docker_daemon_config, indent=2)` for the
two-key object of lines 162-166, given as its lines.  (JSON string
escaping of special characters inside `gateway`/`zot_port` is not
modelled; no claim depends on it.) -/
def docker_daemon_json_lines (gateway zot_port : String) : List String :=
  ["\x7b",
   "  \"registry-mirrors\": [",
   "    \"http://" ++ (gateway ++ (":" ++ (zot_port ++ "\""))),
   "  ],",
   "  \"insecure-registries\": [",
   "    \"" ++ (gateway ++ (":" ++ (zot_port ++ "\""))),
   "  ]",
   "\x7d"]

/-- Python `json.dumps(docker_daemon_config, indent=2)` (line 166). -/
def docker_daemon_json (gateway zot_port : String) : String :=
  joinNl (docker_daemon_json_lines gateway zot_port)

/-- The `write_files` entry for `/etc/docker/daemon.json` (lines 168-173). -/
def dockerChunk (gateway zot_port : String) : List String :=
  ["  - path: /etc/docker/daemon.json",
   "    content: |"]
  ++ (splitNl (docker_daemon_json gateway zot_port)).map (fun l => "      " ++ l)

/-- The whole mirror-configuration section: header comments plus
`write_files:` and all three groups of entries, emitted only when the
mirror dict is non-empty (`if zot_mirrors:` at line 78). -/
def mirrorSection (gateway zot_port : String) (ms : List (String × PyVal)) : List String :=
  if ms.isEmpty then [] else
    ["# Containerd registry mirror configuration for Zot pull-through cache",
     "# Each registry gets a hosts.toml that points to the local Zot mirror",
     "write_files:"]
    ++ ms.flatMap (mirrorEntryLines gateway zot_port)
    ++ buildkitChunk gateway zot_port ms
    ++ dockerChunk gateway zot_port

/-- Python `s.rstrip('\n')`: drop every trailing newline character
(line 194 reads the CA file and strips trailing newlines). -/
def rstripNl (s : String) : String :=
  String.mk (s.data.reverse.dropWhile (fun c => c = '\n')).reverse

/-- The `ca_certs` block (lines 196-205). -/
def caSection (ca_cert_content : String) : List String :=
  ["",
   "# CA certificate for Squid SSL bump",
   "# Required for HTTPS interception of configured domains",
   "ca_certs:",
   "  trusted:",
   "    - |"]
  ++ (splitNl (rstripNl ca_cert_content)).map (fun l => "      " ++ l)

/-- The debug-SSH `users` block (lines 219-227). -/
def sshSection (debug_ssh_key : String) : List String :=
  ["",
   "# SSH access for debugging",
   "users:",
   "  - name: root",
   "    ssh_authorized_keys:",
   "      - " ++ debug_ssh_key]

/-- The CA-bundle repair `runcmd` entry (lines 237-249). -/
def caFixChunk : List String :=
  ["  # Fix Ubuntu 24.04 bug: ca_certs module creates hash symlinks but doesn\x27t",
   "  # add cert to /etc/ssl/certs/ca-certificates.crt bundle file.",
   "  # curl/docker use the bundle file, not symlinks, so we must append manually.",
   "  - |",
   "    CA_CERT=$(ls /usr/local/share/ca-certificates/cloud-init-ca-cert-*.crt 2>/dev/null | head -1)",
   "    if [ -n \"$CA_CERT\" ]; then",
   "      update-ca-certificates",
   "      cat \"$CA_CERT\" >> /etc/ssl/certs/ca-certificates.crt",
   "      echo \"CA cert added to bundle: $CA_CERT\"",
   "    fi"]

/-- The container-runtime restart `runcmd` entries (lines 252-266). -/
def restartChunk : List String :=
  ["  # Ensure containerd picks up the new registry mirrors",
   "  - mkdir -p /etc/containerd/certs.d",
   "  - mkdir -p /etc/buildkit",
   "  - systemctl restart containerd || true",
   "  # Restart Docker daemon to pick up registry mirror config",
   "  - systemctl restart docker || true",
   "  # Create a pre-configured Buildx builder that uses our registry mirrors",
   "  - |",
   "    if command -v docker &> /dev/null && [ -f /etc/buildkit/buildkitd.toml ]; then",
   "      docker buildx create --name zot-cache --driver docker-container \\",
   "        --config /etc/buildkit/buildkitd.toml --use 2>/dev/null || true",
   "    fi"]

/-- The DNS-override `runcmd` entry (lines 269-273). -/
def dnsChunk (gateway : String) : List String :=
  ["  # Set DNS to use host gateway (centralized DNS via dnsmasq)",
   "  - echo \x27nameserver " ++ (gateway ++ "\x27 > /etc/resolv.conf")]

/-- The hostname-from-MMDS `runcmd` entry (lines 276-283), emitted
unconditionally as the final chunk. -/
def hostnameChunk : List String :=
  ["  # Set hostname from MMDS metadata",
   "  - |",
   "    RUNNER_ID=$(curl -sf http://169.254.169.254/latest/meta-data/fireactions/runner_id)",
   "    if [ -n \"$RUNNER_ID\" ]; then",
   "      hostnamectl set-hostname \"$RUNNER_ID\"",
   "    fi"]

/-- The environment-derived inputs of the fireactions generator, after the
collaborator has read the environment and the secret files:
`zot_mirrors_parse` is the result of `json.loads(ZOT_MIRRORS)` (`none` on
a `JSONDecodeError`), `ca_cert_content` the text of the file named by
`SQUID_CA_FILE`, and `debug_ssh_key` the key after the file/env
resolution of lines 210-217 (`""` when unset). -/
structure FireEnv where
  zot_enabled : Bool
  gateway : String
  zot_port : String
  zot_mirrors_parse : Option (List (String × PyVal))
  squid_ssl_bump_mode : String
  squid_ssl_bump_domains : String
  squid_ca_file : String
  ca_cert_content : String
  debug_ssh_key : String

/-- Lines 72-76: a `JSONDecodeError` yields an empty mirror dict plus a
warning on stdout; a successful parse yields the parsed dict and no
warning. -/
def fa_zot_mirrors (zot_mirrors_json : String)
    (parse : Option (List (String × PyVal))) :
    List (String × PyVal) × List String :=
  match parse with
  | some ms => (ms, [])
  | none => ([], ["Warning: Failed to parse ZOT_MIRRORS JSON: " ++ zot_mirrors_json])

/-- Whether a CA certificate is injected (`needs_ca and squid_ca_file`,
lines 192 and 237). -/
def caInjected (e : FireEnv) : Bool :=
  needs_ca e.squid_ssl_bump_mode e.squid_ssl_bump_domains && e.squid_ca_file != ""

/-- The full `user_data_lines` list of the fireactions generator
(lines 60-283).  The result is an `Except` because the source has one
crashing path: when `zot_enabled` is true but the gateway is empty, the
guard at line 68 skips the assignment of `zot_mirrors`, and the
condition `zot_enabled and zot_mirrors` at line 252 then raises a
`NameError` (Python evaluates it because `zot_enabled` is truthy),
aborting the whole run. -/
def user_data_lines (e : FireEnv) : Except String (List String) :=
  let mirrors := e.zot_mirrors_parse.getD []
  let base :=
    ["#cloud-config",
     "# Registry cache configuration - auto-injected by fireactions",
     ""]
    ++ (if e.zot_enabled && e.gateway != "" then
          mirrorSection e.gateway e.zot_port mirrors
        else [])
    ++ (if caInjected e then caSection e.ca_cert_content else [])
    ++ (if e.debug_ssh_key != "" then sshSection e.debug_ssh_key else [])
    ++ ["", "# Runtime configuration via runcmd", "runcmd:"]
    ++ (if caInjected e then caFixChunk else [])
  if e.zot_enabled then
    if e.gateway == "" then
      Except.error "NameError: name \x27zot_mirrors\x27 is not defined"
    else
      Except.ok (base
        ++ (if mirrors.isEmpty then [] else restartChunk)
        ++ (if e.gateway != "" then dnsChunk e.gateway else [])
        ++ hostnameChunk)
  else
    Except.ok (base
      ++ (if e.gateway != "" then dnsChunk e.gateway else [])
      ++ hostnameChunk)

/-- The final user-data text blob (line 285):
`'\n'.join(user_data_lines) + '\n'`. -/
def user_data (e : FireEnv) : Except String String :=
  (user_data_lines e).map (fun ls => joinNl ls ++ "\n")

/-- The generated lines of a successful run (`[]` for the crashing path). -/
def okLines : Except String (List String) → List String
  | Except.ok ls => ls
  | Except.error _ => []

/-- Top of the injection block (line 59): user-data is built and attached
only when `zot_enabled or gateway` is truthy and the config has a
`pools` key. -/
def fireactionsRun (hasPools : Bool) (e : FireEnv) :
    Except String (Option (List String)) :=
  if (e.zot_enabled || e.gateway != "") && hasPools then
    (user_data_lines e).map some
  else
    Except.ok none

/-! ## The generate-config variant

Embedding of `images/src/generate-config.py`: the function
`generate_registry_cache_userdata` (lines 79-193) and the mirror-JSON
fallback of `main` (lines 234-242).  The per-mirror `hosts.toml` entries
are textually identical to the fireactions variant and reuse
`mirrorEntryLines`; the BuildKit entry has a shorter comment header and
the `runcmd` block is emitted unconditionally. -/

/-- The BuildKit `write_files` entry of generate-config (lines 146-152). -/
def gcBuildkitChunk (gateway zot_port : String) (ms : List (String × PyVal)) : List String :=
  ["  - path: /etc/buildkit/buildkitd.toml",
   "    content: |",
   "      # BuildKit registry mirrors for docker/setup-buildx-action"]
  ++ (splitNl (buildkit_config gateway zot_port ms)).map (fun l => "      " ++ l)

/-- The restart commands of generate-config's `runcmd` (lines 172-182). -/
def gcRestartChunk : List String :=
  ["  # Ensure containerd picks up the new registry mirrors",
   "  - mkdir -p /etc/containerd/certs.d",
   "  - mkdir -p /etc/buildkit",
   "  - systemctl restart containerd || true",
   "  - systemctl restart docker || true",
   "  # Create pre-configured Buildx builder",
   "  - |",
   "    if command -v docker &> /dev/null && [ -f /etc/buildkit/buildkitd.toml ]; then",
   "      docker buildx create --name zot-cache --driver docker-container \\",
   "        --config /etc/buildkit/buildkitd.toml --use 2>/dev/null || true",
   "    fi"]

/-- The DNS-override entry of generate-config's `runcmd` (lines 183-184). -/
def gcDnsChunk (gateway : String) : List String :=
  ["  # Set DNS to use host gateway",
   "  - echo \x27nameserver " ++ (gateway ++ "\x27 > /etc/resolv.conf")]

/-- The hostname entry of generate-config's `runcmd` (lines 185-190). -/
def gcHostnameChunk : List String :=
  ["  # Set hostname from MMDS metadata",
   "  - |",
   "    RUNNER_ID=$(curl -sf http://169.254.169.254/latest/meta-data/fireactions/runner_id)",
   "    if [ -n \"$RUNNER_ID\" ]; then",
   "      hostnamectl set-hostname \"$RUNNER_ID\"",
   "    fi"]

/-- `generate_registry_cache_userdata(gateway, zot_port, zot_mirrors)` as
its line list (lines 81-191; the function returns these lines joined with
newlines plus a trailing newline). -/
def gcUserDataLines (gateway zot_port : String) (ms : List (String × PyVal)) : List String :=
  ["#cloud-config",
   "# Registry cache configuration - auto-injected by fireactions",
   "",
   "# Containerd registry mirror configuration for Zot pull-through cache",
   "write_files:"]
  ++ ms.flatMap (mirrorEntryLines gateway zot_port)
  ++ gcBuildkitChunk gateway zot_port ms
  ++ dockerChunk gateway zot_port
  ++ ["", "runcmd:"]
  ++ gcRestartChunk
  ++ gcDnsChunk gateway
  ++ gcHostnameChunk

/-- Mirror-JSON resolution of generate-config's `main` (lines 234-242): a
`JSONDecodeError` falls back to the built-in four-mirror default set, and
no warning is logged. -/
def gc_zot_mirrors (parse : Option (List (String × PyVal))) : List (String × PyVal) :=
  match parse with
  | some ms => ms
  | none =>
    [("docker.io", PyVal.dict [("url", PyVal.str "https://registry-1.docker.io")]),
     ("ghcr.io", PyVal.dict [("url", PyVal.str "https://ghcr.io")]),
     ("quay.io", PyVal.dict [("url", PyVal.str "https://quay.io")]),
     ("gcr.io", PyVal.dict [("url", PyVal.str "https://gcr.io")])]

/-! ## Pool metadata injection

Lines 287-292 of `fireactions-inject-secrets.py` (identical to lines
322-327 of `fireglab/inject-secrets.py`): the generated document is
stored under the `user-data` key of each pool's
`firecracker.metadata` map, but only when that key is absent. -/

/-- Python `"user-data" in metadata`. -/
def metadataHasKey (metadata : List (String × String)) (k : String) : Bool :=
  metadata.any (fun kv => kv.1 == k)

/-- Per-pool injection: set `user-data` only when the key is absent. -/
def injectUserData (ud : String) (metadata : List (String × String)) :
    List (String × String) :=
  if metadataHasKey metadata "user-data" then metadata
  else metadata ++ [("user-data", ud)]

/-- The `for pool in config["pools"]` loop applying the injection to every
pool's metadata map. -/
def injectAllPools (ud : String) (pools : List (List (String × String))) :
    List (List (String × String)) :=
  pools.map (injectUserData ud)

/-- Lookup in a pool metadata map. -/
def metadataLookup : List (String × String) → String → Option String
  | [], _ => none
  | kv :: rest, k => if kv.1 == k then some kv.2 else metadataLookup rest k

/-! ## Claims -/

/-- C3: for every mirror, the upstream URL is resolved as: explicit `url`
field of the mirror's input object first; otherwise the built-in default
for the four well-known names (`docker.io`, `ghcr.io`, `quay.io`,
`gcr.io`); otherwise the synthesized `https://<name>`. -/
theorem C3_upstream_resolution :
    (∀ (registry_name : String) (fields : List (String × PyVal)) (u : String),
      assocLookup fields "url" = some (PyVal.str u) →
      upstream_url registry_name (PyVal.dict fields) = PyVal.str u)
    ∧ (∀ (registry_name : String) (fields : List (String × PyVal)),
      assocLookup fields "url" = none →
      upstream_url registry_name (PyVal.dict fields) =
        PyVal.str (defaultUpstream registry_name))
    ∧ defaultUpstream "docker.io" = "https://registry-1.docker.io"
    ∧ defaultUpstream "ghcr.io" = "https://ghcr.io"
    ∧ defaultUpstream "quay.io" = "https://quay.io"
    ∧ defaultUpstream "gcr.io" = "https://gcr.io"
    ∧ (∀ registry_name : String, registry_name ≠ "docker.io" →
        registry_name ≠ "ghcr.io" → registry_name ≠ "quay.io" →
        registry_name ≠ "gcr.io" →
        defaultUpstream registry_name = "https://" ++ registry_name) := by
  refine ⟨?_, ?_, by decide, by decide, by decide, by decide, ?_⟩
  · intro registry_name fields u h
    simp [upstream_url, h]
  · intro registry_name fields h
    simp [upstream_url, h]
  · intro registry_name h1 h2 h3 h4
    simp [defaultUpstream, default_upstreams, lookupStr, beq_iff_eq,
      Ne.symm h1, Ne.symm h2, Ne.symm h3, Ne.symm h4]

/-- C3 witness: concrete instances of the resolution order. -/
theorem C3_witness :
    upstream_url "docker.io" (PyVal.dict []) =
      PyVal.str "https://registry-1.docker.io"
    ∧ defaultUpstream "example.com" = "https://example.com" :=
  ⟨C3_upstream_resolution.2.1 "docker.io" [] rfl,
   C3_upstream_resolution.2.2.2.2.2.2 "example.com"
     (by decide) (by decide) (by decide) (by decide)⟩

/-- C6 counterexample: a mirror object whose `url` field holds the
non-string `123` does not degrade to the synthesized default
`https://example.com`; Python's `dict.get` returns the stored value, and
the f-string stringifies it to `"123"`. -/
theorem C6_counterexample :
    upstream_url "example.com" (PyVal.dict [("url", PyVal.int 123)]) ≠
      PyVal.str "https://example.com"
    ∧ PyVal.pyStr
        (upstream_url "example.com" (PyVal.dict [("url", PyVal.int 123)])) =
      "123" := by
  constructor
  · have h : upstream_url "example.com" (PyVal.dict [("url", PyVal.int 123)]) =
        PyVal.int 123 := rfl
    rw [h]
    intro he
    exact PyVal.noConfusion he
  · rfl

/-- C6 amended: a mirror whose input value is not an object at all
degrades to the default/synthesized URL; when the input object carries a
`url` field, that field's value is used whatever it is (stringified at
emission), and only an absent `url` key falls back to the default. -/
theorem C6_amended_resolution :
    (∀ (registry_name : String) (n : Int),
      upstream_url registry_name (PyVal.int n) =
        PyVal.str (defaultUpstream registry_name))
    ∧ (∀ (registry_name s : String),
      upstream_url registry_name (PyVal.str s) =
        PyVal.str (defaultUpstream registry_name))
    ∧ (∀ (registry_name : String) (fields : List (String × PyVal)) (v : PyVal),
      assocLookup fields "url" = some v →
      upstream_url registry_name (PyVal.dict fields) = v) := by
  refine ⟨fun _ _ => rfl, fun _ _ => rfl, ?_⟩
  intro registry_name fields v h
  simp [upstream_url, h]

/-- C6 amended witness: the non-string `url` value is taken verbatim. -/
theorem C6_amended_witness :
    upstream_url "example.com" (PyVal.dict [("url", PyVal.int 7)]) =
      PyVal.int 7 :=
  C6_amended_resolution.2.2 "example.com" [("url", PyVal.int 7)] (PyVal.int 7) rfl

/-- C9: a pool whose metadata already contains the `user-data` key is left
completely unchanged by the injection loop, and remains an element of the
processed pool list. -/
theorem C9_override_wins (ud : String) (pools : List (List (String × String)))
    (metadata : List (String × String)) (hm : metadata ∈ pools)
    (h : metadataHasKey metadata "user-data" = true) :
    injectUserData ud metadata = metadata ∧
    metadata ∈ injectAllPools ud pools := by
  have heq : injectUserData ud metadata = metadata := by
    simp [injectUserData, h]
  exact ⟨heq, List.mem_map.mpr ⟨metadata, hm, heq⟩⟩

/-- C9 witness: a pool carrying `user-data` is untouched. -/
theorem C9_witness :
    injectUserData "#cloud-config" [("user-data", "original")] =
      [("user-data", "original")]
    ∧ [("user-data", "original")] ∈
        injectAllPools "#cloud-config" [[("user-data", "original")]] :=
  C9_override_wins "#cloud-config" [[("user-data", "original")]]
    [("user-data", "original")] (by simp) (by decide)

/-- C10 (code bug evidence): with the registry cache enabled, a pool
present and an empty gateway, the run does not build a document at all -
it crashes with a `NameError`, because `zot_mirrors` is only assigned
under `if zot_enabled and gateway:` (line 68) yet is read by
`if zot_enabled and zot_mirrors:` (line 252). -/
theorem C10_enabled_empty_gateway_crash :
    fireactionsRun true
      ⟨true, "", "5000", some [("docker.io", PyVal.dict [])],
        "off", "", "", "", ""⟩ =
      Except.error "NameError: name \x27zot_mirrors\x27 is not defined" := rfl

/-- C5 counterexample: in `generate-config.py`, an unparsable mirror JSON
(`json.loads` failure, modelled as a `none` parse) is not treated as an
empty mirror set - it falls back to the built-in four-mirror default set,
and mirror directives are then produced (the first containerd hosts.toml
directive is shown at its position in the generated document). -/
theorem C5_counterexample :
    gc_zot_mirrors none ≠ []
    ∧ (gc_zot_mirrors none).length = 4
    ∧ (gcUserDataLines "10.0.0.1" "5000" (gc_zot_mirrors none))[5]? =
        some "  - path: /etc/containerd/certs.d/docker.io/hosts.toml" := by
  refine ⟨?_, rfl, rfl⟩
  intro h
  exact List.noConfusion h

/-- C5 amended: in the fireactions module script, unparsable mirror JSON
yields an empty mirror set plus a logged warning and no mirror directives;
in the generate-config variant it yields the built-in four-mirror default
set and no warning.  Neither variant aborts (both resolutions are total). -/
theorem C5_amended_parse_fallback :
    (∀ raw : String, fa_zot_mirrors raw none =
      ([], ["Warning: Failed to parse ZOT_MIRRORS JSON: " ++ raw]))
    ∧ (∀ raw : String, ∀ ms, fa_zot_mirrors raw (some ms) = (ms, []))
    ∧ (∀ gateway zot_port : String, mirrorSection gateway zot_port [] = [])
    ∧ gc_zot_mirrors none =
      [("docker.io", PyVal.dict [("url", PyVal.str "https://registry-1.docker.io")]),
       ("ghcr.io", PyVal.dict [("url", PyVal.str "https://ghcr.io")]),
       ("quay.io", PyVal.dict [("url", PyVal.str "https://quay.io")]),
       ("gcr.io", PyVal.dict [("url", PyVal.str "https://gcr.io")])] :=
  ⟨fun _ => rfl, fun _ _ => rfl, fun _ _ => rfl, rfl⟩

/-! ## Host-block analysis for C1 -/

/-- A line opening a `[host."..."]` block of a `hosts.toml` file. -/
def isHostHeader (l : String) : Bool := startsWithL "[host.".data l.data

/-- Number of `[host.*]` blocks of a `hosts.toml` text given as lines. -/
def countHostBlocks (ls : List String) : Nat :=
  (ls.filter isHostHeader).length

theorem isHostHeader_append_left (a b : String) (h : 6 ≤ a.data.length) :
    isHostHeader (a ++ b) = isHostHeader a := by
  unfold isHostHeader
  rw [String.data_append, startsWithL_append_left]
  calc ("[host.".data).length = 6 := by decide
    _ ≤ a.data.length := h

theorem splitNl_hosts_toml_docker (gateway zot_port u : String)
    (hg : nlFree gateway) (hp : nlFree zot_port) (hu : nlFree u) :
    splitNl (hosts_toml gateway zot_port "docker.io" u) =
      ["server = \"" ++ (u ++ "\""),
       "",
       "[host.\"http://" ++ (gateway ++ (":" ++ (zot_port ++ "\"]"))),
       "  capabilities = [\"pull\", \"resolve\"]",
       "  skip_verify = true"] := by
  rw [hosts_toml, if_pos (by rfl)]
  apply splitNl_joinNl _ _ (by simp)
  intro l hl
  simp only [List.mem_cons, List.not_mem_nil, or_false] at hl
  rcases hl with rfl | rfl | rfl | rfl | rfl
  · rw [nlFree_append, nlFree_append]
    exact ⟨by decide, hu, by decide⟩
  · decide
  · rw [nlFree_append, nlFree_append, nlFree_append, nlFree_append]
    exact ⟨by decide, hg, by decide, hp, by decide⟩
  · decide
  · decide

theorem splitNl_hosts_toml_other (gateway zot_port registry_name u : String)
    (hg : nlFree gateway) (hp : nlFree zot_port) (hn : nlFree registry_name)
    (hu : nlFree u) (hne : registry_name ≠ "docker.io") :
    splitNl (hosts_toml gateway zot_port registry_name u) =
      ["server = \"" ++ (u ++ "\""),
       "",
       "[host.\"http://" ++ (gateway ++ (":" ++ (zot_port ++ "\"]"))),
       "  capabilities = [\"pull\", \"resolve\"]",
       "  skip_verify = true",
       "",
       "[host.\"http://" ++
         (gateway ++ (":" ++ (zot_port ++ ("/v2/" ++ (registry_name ++ "\"]"))))),
       "  capabilities = [\"pull\", \"resolve\"]",
       "  override_path = true"] := by
  rw [hosts_toml, if_neg (by simpa [beq_iff_eq] using hne)]
  apply splitNl_joinNl _ _ (by simp)
  intro l hl
  simp only [List.mem_cons, List.not_mem_nil, or_false] at hl
  rcases hl with rfl | rfl | rfl | rfl | rfl | rfl | rfl | rfl | rfl
  · rw [nlFree_append, nlFree_append]
    exact ⟨by decide, hu, by decide⟩
  · decide
  · rw [nlFree_append, nlFree_append, nlFree_append, nlFree_append]
    exact ⟨by decide, hg, by decide, hp, by decide⟩
  · decide
  · decide
  · decide
  · rw [nlFree_append, nlFree_append, nlFree_append, nlFree_append,
      nlFree_append, nlFree_append]
    exact ⟨by decide, hg, by decide, hp, by decide, hn, by decide⟩
  · decide
  · decide

/-- C1: the per-mirror `hosts.toml` directive is written at
`/etc/containerd/certs.d/<name>/hosts.toml`; for the mirror named
`docker.io` its content has exactly one `[host.*]` block (the root block
for `http://<gateway>:<port>`), and for every other name exactly two, the
second at `http://<gateway>:<port>/v2/<name>`, with the
`override_path = true` line present. -/
theorem C1_host_blocks (gateway zot_port registry_name u : String) (cfg : PyVal)
    (hg : nlFree gateway) (hp : nlFree zot_port) (hn : nlFree registry_name)
    (hu : nlFree u) :
    (registry_name = "docker.io" →
      (splitNl (hosts_toml gateway zot_port registry_name u)).filter isHostHeader =
        ["[host.\"http://" ++ (gateway ++ (":" ++ (zot_port ++ "\"]")))] ∧
      countHostBlocks (splitNl (hosts_toml gateway zot_port registry_name u)) = 1)
    ∧ (registry_name ≠ "docker.io" →
      (splitNl (hosts_toml gateway zot_port registry_name u)).filter isHostHeader =
        ["[host.\"http://" ++ (gateway ++ (":" ++ (zot_port ++ "\"]"))),
         "[host.\"http://" ++
           (gateway ++ (":" ++ (zot_port ++ ("/v2/" ++ (registry_name ++ "\"]")))))] ∧
      countHostBlocks (splitNl (hosts_toml gateway zot_port registry_name u)) = 2 ∧
      "  override_path = true" ∈ splitNl (hosts_toml gateway zot_port registry_name u))
    ∧ (mirrorEntryLines gateway zot_port (registry_name, cfg)).head? =
        some ("  - path: /etc/containerd/certs.d/" ++ (registry_name ++ "/hosts.toml")) := by
  have hserver : ∀ x : String, isHostHeader ("server = \"" ++ x) = false := by
    intro x
    rw [isHostHeader_append_left _ _ (by decide)]
    decide
  have hhost : ∀ x : String, isHostHeader ("[host.\"http://" ++ x) = true := by
    intro x
    rw [isHostHeader_append_left _ _ (by decide)]
    decide
  have he : isHostHeader "" = false := by decide
  have hcap : isHostHeader "  capabilities = [\"pull\", \"resolve\"]" = false := by decide
  have hskip : isHostHeader "  skip_verify = true" = false := by decide
  have hov : isHostHeader "  override_path = true" = false := by decide
  refine ⟨?_, ?_, rfl⟩
  · intro hdn
    subst hdn
    rw [splitNl_hosts_toml_docker _ _ _ hg hp hu]
    refine ⟨?_, ?_⟩
    · simp [List.filter_cons, hserver, hhost, he, hcap, hskip]
    · simp [countHostBlocks, List.filter_cons, hserver, hhost, he, hcap, hskip]
  · intro hne
    rw [splitNl_hosts_toml_other _ _ _ _ hg hp hn hu hne]
    refine ⟨?_, ?_, ?_⟩
    · simp [List.filter_cons, hserver, hhost, he, hcap, hskip, hov]
    · simp [countHostBlocks, List.filter_cons, hserver, hhost, he, hcap, hskip, hov]
    · simp

/-- C1 witness: the end-to-end example mirrors of the spec. -/
theorem C1_witness :
    countHostBlocks
      (splitNl (hosts_toml "10.200.0.1" "5000" "ghcr.io" "https://ghcr.io")) = 2
    ∧ countHostBlocks
      (splitNl (hosts_toml "10.200.0.1" "5000" "docker.io"
        "https://registry-1.docker.io")) = 1 :=
  ⟨((C1_host_blocks "10.200.0.1" "5000" "ghcr.io" "https://ghcr.io"
      (PyVal.dict []) (by decide) (by decide) (by decide) (by decide)).2.1
      (by decide)).2.1,
   ((C1_host_blocks "10.200.0.1" "5000" "docker.io" "https://registry-1.docker.io"
      (PyVal.dict []) (by decide) (by decide) (by decide) (by decide)).1
      rfl).2⟩

/-- C4: in every generated document the `runcmd` entries appear in the
fixed order CA-bundle fix (iff a CA was injected), container-runtime
restarts (iff mirrors were configured), DNS override (iff a gateway is
supplied), hostname-from-metadata; the hostname chunk is present in every
generated document and nothing follows it.  The last conjunct states the
same order for the generate-config variant, whose restart and DNS entries
are unconditional. -/
theorem C4_runcmd_order (e : FireEnv)
    (h : ¬(e.zot_enabled = true ∧ e.gateway = "")) :
    (user_data_lines e = Except.ok (
      (["#cloud-config",
        "# Registry cache configuration - auto-injected by fireactions",
        ""]
        ++ (if e.zot_enabled && e.gateway != "" then
              mirrorSection e.gateway e.zot_port (e.zot_mirrors_parse.getD [])
            else [])
        ++ (if caInjected e then caSection e.ca_cert_content else [])
        ++ (if e.debug_ssh_key != "" then sshSection e.debug_ssh_key else []))
      ++ ["", "# Runtime configuration via runcmd", "runcmd:"]
      ++ (if caInjected e then caFixChunk else [])
      ++ (if e.zot_enabled && !(e.zot_mirrors_parse.getD []).isEmpty then
            restartChunk
          else [])
      ++ (if e.gateway != "" then dnsChunk e.gateway else [])
      ++ hostnameChunk))
    ∧ (∃ q, okLines (user_data_lines e) = q ++ hostnameChunk)
    ∧ (∀ (gateway zot_port : String) (ms : List (String × PyVal)), ∃ pre,
        gcUserDataLines gateway zot_port ms =
          pre ++ ["", "runcmd:"] ++ gcRestartChunk ++ gcDnsChunk gateway
            ++ gcHostnameChunk) := by
  have hmain : user_data_lines e = Except.ok (
      (["#cloud-config",
        "# Registry cache configuration - auto-injected by fireactions",
        ""]
        ++ (if e.zot_enabled && e.gateway != "" then
              mirrorSection e.gateway e.zot_port (e.zot_mirrors_parse.getD [])
            else [])
        ++ (if caInjected e then caSection e.ca_cert_content else [])
        ++ (if e.debug_ssh_key != "" then sshSection e.debug_ssh_key else []))
      ++ ["", "# Runtime configuration via runcmd", "runcmd:"]
      ++ (if caInjected e then caFixChunk else [])
      ++ (if e.zot_enabled && !(e.zot_mirrors_parse.getD []).isEmpty then
            restartChunk
          else [])
      ++ (if e.gateway != "" then dnsChunk e.gateway else [])
      ++ hostnameChunk) := by
    cases hz : e.zot_enabled with
    | false =>
      simp [user_data_lines, hz, List.append_assoc]
    | true =>
      have hgw : ¬(e.gateway = "") := fun hg => h ⟨hz, hg⟩
      cases hm : (e.zot_mirrors_parse.getD []).isEmpty <;>
        simp [user_data_lines, hz, hm, hgw, List.append_assoc]
  refine ⟨hmain, ⟨(["#cloud-config",
      "# Registry cache configuration - auto-injected by fireactions",
      ""]
      ++ (if e.zot_enabled && e.gateway != "" then
            mirrorSection e.gateway e.zot_port (e.zot_mirrors_parse.getD [])
          else [])
      ++ (if caInjected e then caSection e.ca_cert_content else [])
      ++ (if e.debug_ssh_key != "" then sshSection e.debug_ssh_key else []))
      ++ ["", "# Runtime configuration via runcmd", "runcmd:"]
      ++ (if caInjected e then caFixChunk else [])
      ++ (if e.zot_enabled && !(e.zot_mirrors_parse.getD []).isEmpty then
            restartChunk
          else [])
      ++ (if e.gateway != "" then dnsChunk e.gateway else []), ?_⟩, ?_⟩
  · rw [hmain]
    rfl
  · intro gateway zot_port ms
    refine ⟨["#cloud-config",
      "# Registry cache configuration - auto-injected by fireactions",
      "",
      "# Containerd registry mirror configuration for Zot pull-through cache",
      "write_files:"]
      ++ ms.flatMap (mirrorEntryLines gateway zot_port)
      ++ gcBuildkitChunk gateway zot_port ms
      ++ dockerChunk gateway zot_port, ?_⟩
    simp [gcUserDataLines, List.append_assoc]

/-- C4 witness: the concrete document for an enabled cache with empty
mirror set ends with the hostname chunk after the DNS override. -/
theorem C4_witness :
    user_data_lines ⟨true, "10.0.0.1", "5000", some [], "off", "", "", "", ""⟩ =
      Except.ok
        ["#cloud-config",
         "# Registry cache configuration - auto-injected by fireactions",
         "",
         "",
         "# Runtime configuration via runcmd",
         "runcmd:",
         "  # Set DNS to use host gateway (centralized DNS via dnsmasq)",
         "  - echo \x27nameserver 10.0.0.1\x27 > /etc/resolv.conf",
         "  # Set hostname from MMDS metadata",
         "  - |",
         "    RUNNER_ID=$(curl -sf http://169.254.169.254/latest/meta-data/fireactions/runner_id)",
         "    if [ -n \"$RUNNER_ID\" ]; then",
         "      hostnamectl set-hostname \"$RUNNER_ID\"",
         "    fi"] :=
  ((C4_runcmd_order ⟨true, "10.0.0.1", "5000", some [], "off", "", "", "", ""⟩
    (by decide)).1).trans (by rfl)

/-! ## Document shape lemmas for the membership claims -/

theorem str_append_assoc (a b c : String) : a ++ b ++ c = a ++ (b ++ c) :=
  String.ext (by simp [String.data_append])

theorem mem_of_mem_ite_nil {α : Type} {c : Prop} [Decidable c] {X : List α}
    {l : α} (h : l ∈ (if c then X else [])) : l ∈ X := by
  split at h
  · exact h
  · simp at h

/-- The generated line list of a non-crashing fireactions run, as the
concatenation of its conditional chunks. -/
theorem user_data_lines_ok (e : FireEnv)
    (h : ¬(e.zot_enabled = true ∧ e.gateway = "")) :
    okLines (user_data_lines e) =
      ["#cloud-config",
       "# Registry cache configuration - auto-injected by fireactions",
       ""]
      ++ (if e.zot_enabled && e.gateway != "" then
            mirrorSection e.gateway e.zot_port (e.zot_mirrors_parse.getD [])
          else [])
      ++ (if caInjected e then caSection e.ca_cert_content else [])
      ++ (if e.debug_ssh_key != "" then sshSection e.debug_ssh_key else [])
      ++ ["", "# Runtime configuration via runcmd", "runcmd:"]
      ++ (if caInjected e then caFixChunk else [])
      ++ (if e.zot_enabled && !(e.zot_mirrors_parse.getD []).isEmpty then
            restartChunk
          else [])
      ++ (if e.gateway != "" then dnsChunk e.gateway else [])
      ++ hostnameChunk := by
  cases hz : e.zot_enabled with
  | false =>
    simp [user_data_lines, okLines, hz, List.append_assoc]
  | true =>
    have hgw : ¬(e.gateway = "") := fun hg => h ⟨hz, hg⟩
    cases hm : (e.zot_mirrors_parse.getD []).isEmpty <;>
      simp [user_data_lines, okLines, hz, hm, hgw, List.append_assoc]

/-- The crashing path generates nothing. -/
theorem okLines_crash (e : FireEnv) (h1 : e.zot_enabled = true)
    (h2 : e.gateway = "") : okLines (user_data_lines e) = [] := by
  simp [user_data_lines, okLines, h1, h2]

/-- Every line of the mirror section is one of the fixed lines, a
containerd path directive, or a six-space-indented payload line. -/
theorem mem_mirrorSection_cases (gateway zot_port : String)
    (ms : List (String × PyVal)) (l : String)
    (h : l ∈ mirrorSection gateway zot_port ms) :
    l ∈ ["# Containerd registry mirror configuration for Zot pull-through cache",
         "# Each registry gets a hosts.toml that points to the local Zot mirror",
         "write_files:",
         "    content: |",
         "  - path: /etc/buildkit/buildkitd.toml",
         "  - path: /etc/docker/daemon.json",
         "      # BuildKit registry mirrors for docker/setup-buildx-action",
         "      # Use with: docker buildx create --config /etc/buildkit/buildkitd.toml",
         "      # Or set BUILDKIT_CONFIG=/etc/buildkit/buildkitd.toml"]
    ∨ (∃ a, l = "  - path: /etc/containerd/certs.d/" ++ a)
    ∨ (∃ a, l = "      " ++ a) := by
  unfold mirrorSection at h
  split at h
  · simp at h
  · simp only [mirrorEntryLines, buildkitChunk, dockerChunk, List.mem_append,
      List.mem_cons, List.not_mem_nil, or_false, List.mem_flatMap,
      List.mem_map] at h
    simp only [List.mem_cons, List.not_mem_nil, or_false]
    aesop

theorem mem_caSection_cases (ca_cert_content l : String)
    (h : l ∈ caSection ca_cert_content) :
    l ∈ ["", "# CA certificate for Squid SSL bump",
         "# Required for HTTPS interception of configured domains",
         "ca_certs:", "  trusted:", "    - |"]
    ∨ (∃ a, l = "      " ++ a) := by
  unfold caSection at h
  simp only [List.mem_append, List.mem_cons, List.not_mem_nil, or_false,
    List.mem_map] at h
  simp only [List.mem_cons, List.not_mem_nil, or_false]
  aesop

theorem mem_sshSection_cases (debug_ssh_key l : String)
    (h : l ∈ sshSection debug_ssh_key) :
    l ∈ ["", "# SSH access for debugging", "users:", "  - name: root",
         "    ssh_authorized_keys:"]
    ∨ l = "      - " ++ debug_ssh_key := by
  unfold sshSection at h
  simp only [List.mem_cons, List.not_mem_nil, or_false] at h
  simp only [List.mem_cons, List.not_mem_nil, or_false]
  tauto

theorem mem_dnsChunk_cases (gateway l : String) (h : l ∈ dnsChunk gateway) :
    l = "  # Set DNS to use host gateway (centralized DNS via dnsmasq)"
    ∨ l = "  - echo \x27nameserver " ++ (gateway ++ "\x27 > /etc/resolv.conf") := by
  unfold dnsChunk at h
  simp only [List.mem_cons, List.not_mem_nil, or_false] at h
  tauto

/-- Lines that can occur in a fireactions document generated with an
empty mirror set (the mirror section and the restart chunk are absent). -/
def emptyMirrorFixedLines : List String :=
  ["#cloud-config", "# Registry cache configuration - auto-injected by fireactions", ""]
  ++ ["", "# CA certificate for Squid SSL bump",
      "# Required for HTTPS interception of configured domains",
      "ca_certs:", "  trusted:", "    - |"]
  ++ ["", "# SSH access for debugging", "users:", "  - name: root",
      "    ssh_authorized_keys:"]
  ++ ["", "# Runtime configuration via runcmd", "runcmd:"]
  ++ caFixChunk
  ++ ["  # Set DNS to use host gateway (centralized DNS via dnsmasq)"]
  ++ hostnameChunk

/-- Exclusion lemma for documents generated from an empty mirror set: a
line that is none of the possible fixed lines, does not start with six
spaces, and does not start like the DNS override cannot occur. -/
theorem not_mem_empty_mirror_doc (gw port mode dom caf cert ssh t : String)
    (hgw : gw ≠ "")
    (h1 : t ∉ emptyMirrorFixedLines)
    (h2 : startsWithL "      ".data t.data = false)
    (h3 : startsWithL "  - echo \x27nameserver ".data t.data = false) :
    t ∉ okLines (user_data_lines ⟨true, gw, port, some [], mode, dom, caf, cert, ssh⟩) := by
  intro hmem
  rw [user_data_lines_ok _ (fun hc => hgw hc.2)] at hmem
  simp only [List.mem_append] at hmem
  simp only [emptyMirrorFixedLines, List.mem_append, not_or] at h1
  rcases hmem with ((((((((hh | hm) | hca) | hssh) | hrh) | hfix) | hre) | hdns) | hhn)
  · exact h1.1.1.1.1.1.1 hh
  · have := mem_of_mem_ite_nil hm
    simp [mirrorSection] at this
  · rcases mem_caSection_cases _ _ (mem_of_mem_ite_nil hca) with hf | ⟨a, ha⟩
    · exact h1.1.1.1.1.1.2 hf
    · exact append_ne_of_not_startsWithL "      " a t h2 ha.symm
  · rcases mem_sshSection_cases _ _ (mem_of_mem_ite_nil hssh) with hf | ha
    · exact h1.1.1.1.1.2 hf
    · rw [show ("      - " : String) ++ ssh = "      " ++ ("- " ++ ssh) from
        (str_append_assoc "      " "- " ssh).symm ▸ rfl] at ha
      exact append_ne_of_not_startsWithL "      " ("- " ++ ssh) t h2 ha.symm
  · exact h1.1.1.1.2 hrh
  · exact h1.1.1.2 (mem_of_mem_ite_nil hfix)
  · simp at hre
  · rcases mem_dnsChunk_cases _ _ (mem_of_mem_ite_nil hdns) with ha | ha
    · exact h1.1.2 (by simp [ha])
    · exact append_ne_of_not_startsWithL "  - echo \x27nameserver "
        (gw ++ "\x27 > /etc/resolv.conf") t h3 ha.symm
  · exact h1.2 hhn

/-- C8: with the cache enabled, a gateway set and an empty mirror mapping,
the generated document contains no `write_files:` block, no BuildKit
config directive, no Docker daemon config directive and no
container-runtime restart command. -/
theorem C8_empty_mirrors (gw port mode dom caf cert ssh : String)
    (hgw : gw ≠ "") :
    "write_files:" ∉
      okLines (user_data_lines ⟨true, gw, port, some [], mode, dom, caf, cert, ssh⟩)
    ∧ "  - path: /etc/buildkit/buildkitd.toml" ∉
      okLines (user_data_lines ⟨true, gw, port, some [], mode, dom, caf, cert, ssh⟩)
    ∧ "  - path: /etc/docker/daemon.json" ∉
      okLines (user_data_lines ⟨true, gw, port, some [], mode, dom, caf, cert, ssh⟩)
    ∧ "  - systemctl restart containerd || true" ∉
      okLines (user_data_lines ⟨true, gw, port, some [], mode, dom, caf, cert, ssh⟩)
    ∧ "  - systemctl restart docker || true" ∉
      okLines (user_data_lines ⟨true, gw, port, some [], mode, dom, caf, cert, ssh⟩) :=
  ⟨not_mem_empty_mirror_doc gw port mode dom caf cert ssh _ hgw
      (by decide) (by decide) (by decide),
   not_mem_empty_mirror_doc gw port mode dom caf cert ssh _ hgw
      (by decide) (by decide) (by decide),
   not_mem_empty_mirror_doc gw port mode dom caf cert ssh _ hgw
      (by decide) (by decide) (by decide),
   not_mem_empty_mirror_doc gw port mode dom caf cert ssh _ hgw
      (by decide) (by decide) (by decide),
   not_mem_empty_mirror_doc gw port mode dom caf cert ssh _ hgw
      (by decide) (by decide) (by decide)⟩

/-- C8 witness at a concrete environment. -/
theorem C8_witness :
    "write_files:" ∉
      okLines (user_data_lines ⟨true, "10.0.0.1", "5000", some [], "off", "", "", "", ""⟩)
    ∧ "  - systemctl restart containerd || true" ∉
      okLines (user_data_lines ⟨true, "10.0.0.1", "5000", some [], "off", "", "", "", ""⟩) :=
  ⟨(C8_empty_mirrors "10.0.0.1" "5000" "off" "" "" "" "" (by decide)).1,
   (C8_empty_mirrors "10.0.0.1" "5000" "off" "" "" "" "" (by decide)).2.2.2.1⟩

/-- Lines that can occur in a fireactions document generated without CA
injection (the `ca_certs` block and the CA-fix command are absent). -/
def noCaFixedLines : List String :=
  ["#cloud-config", "# Registry cache configuration - auto-injected by fireactions", ""]
  ++ ["# Containerd registry mirror configuration for Zot pull-through cache",
      "# Each registry gets a hosts.toml that points to the local Zot mirror",
      "write_files:",
      "    content: |",
      "  - path: /etc/buildkit/buildkitd.toml",
      "  - path: /etc/docker/daemon.json",
      "      # BuildKit registry mirrors for docker/setup-buildx-action",
      "      # Use with: docker buildx create --config /etc/buildkit/buildkitd.toml",
      "      # Or set BUILDKIT_CONFIG=/etc/buildkit/buildkitd.toml"]
  ++ ["", "# SSH access for debugging", "users:", "  - name: root",
      "    ssh_authorized_keys:"]
  ++ ["", "# Runtime configuration via runcmd", "runcmd:"]
  ++ restartChunk
  ++ ["  # Set DNS to use host gateway (centralized DNS via dnsmasq)"]
  ++ hostnameChunk

/-- Exclusion lemma for documents generated without CA injection. -/
theorem not_mem_no_ca_doc (e : FireEnv) (t : String)
    (hca : caInjected e = false)
    (h1 : t ∉ noCaFixedLines)
    (h2 : startsWithL "      ".data t.data = false)
    (h3 : startsWithL "  - echo \x27nameserver ".data t.data = false)
    (h4 : startsWithL "  - path: /etc/containerd/certs.d/".data t.data = false) :
    t ∉ okLines (user_data_lines e) := by
  intro hmem
  by_cases hcrash : e.zot_enabled = true ∧ e.gateway = ""
  · rw [okLines_crash e hcrash.1 hcrash.2] at hmem
    simp at hmem
  · rw [user_data_lines_ok e hcrash] at hmem
    simp only [List.mem_append] at hmem
    simp only [noCaFixedLines, List.mem_append, not_or] at h1
    rcases hmem with ((((((((hh | hm) | hcaM) | hssh) | hrh) | hfix) | hre) | hdns) | hhn)
    · exact h1.1.1.1.1.1.1 hh
    · rcases mem_mirrorSection_cases _ _ _ _ (mem_of_mem_ite_nil hm) with
        hf | ⟨a, ha⟩ | ⟨a, ha⟩
      · exact h1.1.1.1.1.1.2 hf
      · exact append_ne_of_not_startsWithL _ a t h4 ha.symm
      · exact append_ne_of_not_startsWithL _ a t h2 ha.symm
    · rw [hca] at hcaM
      simp at hcaM
    · rcases mem_sshSection_cases _ _ (mem_of_mem_ite_nil hssh) with hf | ha
      · exact h1.1.1.1.1.2 hf
      · rw [show ("      - " : String) ++ e.debug_ssh_key =
            "      " ++ ("- " ++ e.debug_ssh_key) from
            (str_append_assoc "      " "- " e.debug_ssh_key).symm ▸ rfl] at ha
        exact append_ne_of_not_startsWithL "      " _ t h2 ha.symm
    · exact h1.1.1.1.2 hrh
    · rw [hca] at hfix
      simp at hfix
    · exact h1.1.1.2 (mem_of_mem_ite_nil hre)
    · rcases mem_dnsChunk_cases _ _ (mem_of_mem_ite_nil hdns) with ha | ha
      · exact h1.1.2 (by simp [ha])
      · exact append_ne_of_not_startsWithL "  - echo \x27nameserver " _ t h3 ha.symm
    · exact h1.2 hhn

/-- C2: a `ca_certs` block is emitted iff a CA file is supplied and the
SSL-bump policy holds (mode `all`, or mode `selective` with a non-empty
domain list); in every other combination no `ca_certs:` line appears even
when a CA file path is supplied.  (`needs_ca` is textually identical in
the fireglab variant.) -/
theorem C2_ca_policy (e : FireEnv)
    (h : ¬(e.zot_enabled = true ∧ e.gateway = "")) :
    ("ca_certs:" ∈ okLines (user_data_lines e)) ↔
      (e.squid_ca_file ≠ "" ∧
        (e.squid_ssl_bump_mode = "all" ∨
          (e.squid_ssl_bump_mode = "selective" ∧
            e.squid_ssl_bump_domains ≠ ""))) := by
  have hbridge : caInjected e = true ↔
      (e.squid_ca_file ≠ "" ∧
        (e.squid_ssl_bump_mode = "all" ∨
          (e.squid_ssl_bump_mode = "selective" ∧
            e.squid_ssl_bump_domains ≠ ""))) := by
    simp only [caInjected, needs_ca, Bool.and_eq_true, Bool.or_eq_true,
      beq_iff_eq, bne_iff_ne, ne_eq]
    tauto
  rw [← hbridge]
  constructor
  · intro hmem
    by_contra hci
    have hca : caInjected e = false := by
      cases hc : caInjected e
      · rfl
      · exact absurd hc hci
    exact not_mem_no_ca_doc e _ hca (by decide) (by decide) (by decide)
      (by decide) hmem
  · intro hci
    rw [user_data_lines_ok e h]
    simp [hci, caSection, List.mem_append]

/-- C2 witness: mode `all` with a CA file emits the block; mode
`selective` with an empty domain list and a CA file does not. -/
theorem C2_witness :
    ("ca_certs:" ∈ okLines (user_data_lines
      ⟨false, "10.0.0.1", "5000", some [], "all", "", "/run/ca.pem", "CERT", ""⟩)
      ↔ ("/run/ca.pem" ≠ "" ∧
          (("all" : String) = "all" ∨ (("all" : String) = "selective" ∧ ("" : String) ≠ ""))))
    ∧ ("ca_certs:" ∈ okLines (user_data_lines
      ⟨false, "10.0.0.1", "5000", some [], "selective", "", "/run/ca.pem", "CERT", ""⟩)
      ↔ ("/run/ca.pem" ≠ "" ∧
          (("selective" : String) = "all" ∨
            (("selective" : String) = "selective" ∧ ("" : String) ≠ "")))) :=
  ⟨C2_ca_policy ⟨false, "10.0.0.1", "5000", some [], "all", "", "/run/ca.pem", "CERT", ""⟩
      (by simp),
   C2_ca_policy ⟨false, "10.0.0.1", "5000", some [], "selective", "", "/run/ca.pem", "CERT", ""⟩
      (by simp)⟩

/-! ## Block-scalar indentation (C7) -/

theorem map_eq_self_of_eq {α : Type} (f : α → α) (l : List α)
    (h : ∀ x, f x = x) : l.map f = l := by
  induction l with
  | nil => rfl
  | cons a t ih => simp [h, ih]

/-- Stripping six characters from every line of a six-space-indented
emission recovers the payload lines byte for byte. -/
theorem strip6_map_indent (ls : List String) :
    (ls.map (fun l => "      " ++ l)).map (fun l => String.mk (l.data.drop 6)) = ls := by
  rw [List.map_map]
  apply map_eq_self_of_eq
  intro l
  show String.mk (("      " ++ l).data.drop 6) = l
  rw [String.data_append]
  have h6 : ("      ".data).length = 6 := rfl
  rw [← h6, List.drop_left]

theorem all_startsWith6_map (ls : List String) :
    (ls.map (fun l => "      " ++ l)).all
      (fun l => startsWithL "      ".data l.data) = true := by
  simp only [List.all_eq_true, List.mem_map, forall_exists_index, and_imp]
  intro x a _ hx
  rw [← hx, String.data_append, startsWithL_self_append]

/-- C7 counterexample: the hostname script of every generated document is
an embedded multi-line script payload whose content lines are indented
four spaces, not six (shown on the concrete document of a cache-disabled
run with a gateway). -/
theorem C7_counterexample :
    (okLines (user_data_lines
      ⟨false, "10.0.0.1", "5000", some [], "off", "", "", "", ""⟩))[9]? =
      some "  - |"
    ∧ (okLines (user_data_lines
      ⟨false, "10.0.0.1", "5000", some [], "off", "", "", "", ""⟩))[10]? =
      some "    RUNNER_ID=$(curl -sf http://169.254.169.254/latest/meta-data/fireactions/runner_id)"
    ∧ startsWithL "      ".data
        "    RUNNER_ID=$(curl -sf http://169.254.169.254/latest/meta-data/fireactions/runner_id)".data
      = false :=
  ⟨rfl, rfl, by decide⟩

/-- C7 amended: every embedded multi-line file content and the CA
certificate are emitted under a `|` marker with each content line
prefixed by exactly six spaces, reproducing the payload byte for byte
(stripping the six-character prefix recovers the payload's split lines);
the embedded runcmd scripts (CA-bundle fix, hostname script) are instead
emitted with a four-space base indentation. -/
theorem C7_amended_block_indent :
    (∀ (gateway zot_port : String) (m : String × PyVal),
      ((mirrorEntryLines gateway zot_port m).drop 2).map
          (fun l => String.mk (l.data.drop 6)) =
        splitNl (hosts_toml gateway zot_port m.1 (PyVal.pyStr (upstream_url m.1 m.2)))
      ∧ ((mirrorEntryLines gateway zot_port m).drop 2).all
          (fun l => startsWithL "      ".data l.data) = true
      ∧ (mirrorEntryLines gateway zot_port m)[1]? = some "    content: |")
    ∧ (∀ ca_cert_content : String,
      ((caSection ca_cert_content).drop 6).map (fun l => String.mk (l.data.drop 6)) =
        splitNl (rstripNl ca_cert_content)
      ∧ ((caSection ca_cert_content).drop 6).all
          (fun l => startsWithL "      ".data l.data) = true
      ∧ (caSection ca_cert_content)[5]? = some "    - |")
    ∧ (∀ (gateway zot_port : String) (ms : List (String × PyVal)),
      ((dockerChunk gateway zot_port).drop 2).map
          (fun l => String.mk (l.data.drop 6)) =
        splitNl (docker_daemon_json gateway zot_port)
      ∧ ((buildkitChunk gateway zot_port ms).drop 5).map
          (fun l => String.mk (l.data.drop 6)) =
        splitNl (buildkit_config gateway zot_port ms))
    ∧ ((hostnameChunk.drop 2).all (fun l => startsWithL "    ".data l.data) = true
      ∧ (hostnameChunk.drop 2).head? =
          some "    RUNNER_ID=$(curl -sf http://169.254.169.254/latest/meta-data/fireactions/runner_id)"
      ∧ (caFixChunk.drop 4).all (fun l => startsWithL "    ".data l.data) = true
      ∧ (caFixChunk.drop 4).head? =
          some "    CA_CERT=$(ls /usr/local/share/ca-certificates/cloud-init-ca-cert-*.crt 2>/dev/null | head -1)") := by
  refine ⟨?_, ?_, ?_, by decide, rfl, by decide, rfl⟩
  · intro gateway zot_port m
    exact ⟨strip6_map_indent _, all_startsWith6_map _, by simp [mirrorEntryLines]⟩
  · intro ca_cert_content
    exact ⟨strip6_map_indent _, all_startsWith6_map _, by simp [caSection]⟩
  · intro gateway zot_port ms
    exact ⟨strip6_map_indent _, strip6_map_indent _⟩
